import Mathlib

/-!
Shallow embedding of the core of `esm_patcher.py` (Fallout 4 ESM Patcher):
version registry, version resolution, patch-artifact resolution, backup
management, and the patch-application transaction.

Modelling choices:
* A file is its byte sequence (`List Nat`); the file system is a partial map
  from path strings to file contents.  `os.path.getsize` is list length,
  byte-for-byte equality is list equality.
* The external `xdelta3` subprocess (lines 306-311 of the source) is an
  opaque oracle (`ToolRun`): whether the run timed out, its return code, and
  the bytes it wrote (if any) to the temp output path.  Theorems quantify
  over all oracle behaviours.
* Interactive dialogs (the backup-overwrite prompt, line 267) are modelled as
  an explicit boolean answer passed in by the caller.
* Display-only string formatting that uses Python thousands separators or
  floating point (`f"{size:,}"`, `f"{mb:.2f}"`) is abstracted to plain
  decimal rendering; no claim inspects those strings.  The MD5 digest
  computed by `get_file_info` is display-only and is likewise not modelled.
* I/O primitives (`shutil.copy2`, `os.remove`, `os.rename`) are assumed to
  succeed when their preconditions hold; the `except` branches that merely
  convert an OS error into `(False, str(e))` are modelled for the one case
  that arises in the pure model (copy source missing).
-/

namespace ESMPatcher

/-- A file's content: its sequence of bytes. -/
abbrev FileContent := List Nat

/-- The file system: maps a path to the content of the file stored there,
`none` when no file exists at that path. -/
abbrev FileSystem := String → Option FileContent

/-- Create or overwrite the file at path `p` with content `c`. -/
def fsWrite (fs : FileSystem) (p : String) (c : FileContent) : FileSystem :=
  fun q => if q = p then some c else fs q

/-- Delete the file at path `p` (`os.remove`). -/
def fsRemove (fs : FileSystem) (p : String) : FileSystem :=
  fun q => if q = p then none else fs q

/-- One entry of `ESM_VERSIONS` (source lines 46-72): version tag, display
label, and the association list mapping each patch target to its xdelta
artifact filename (Python dict, insertion order preserved). -/
structure VersionRecord where
  version : String
  display : String
  patches_to : List (String × String)
deriving Repr, DecidableEq

/-- The `ESM_VERSIONS` registry (source lines 46-72), as a lookup keyed on
exact byte size. -/
def ESM_VERSIONS (size : Nat) : Option VersionRecord :=
  if size = 330777465 then
    some ⟨"nextgen", "Next-Gen", [("1.10.163", "fallout4_323025.xdelta")]⟩
  else if size = 330553163 then
    some ⟨"vr", "Fallout 4 VR",
      [("1.10.163", "fallout4_322806.xdelta"), ("nextgen", "fallout4_vr_to_ng.xdelta")]⟩
  else if size = 330745373 then
    some ⟨"1.10.163", "1.10.163 (Old-Gen)", [("nextgen", "fallout4_old_to_ng.xdelta")]⟩
  else
    none

/-- One entry of the legacy `PATCH_MAPPINGS` table (source lines 75-86). -/
structure LegacyPatchInfo where
  patch : String
  description : String
  md5 : String
deriving Repr, DecidableEq

/-- The legacy `PATCH_MAPPINGS` table (source lines 75-86), keyed on exact
byte size. -/
def PATCH_MAPPINGS (size : Nat) : Option LegacyPatchInfo :=
  if size = 330777465 then
    some ⟨"fallout4_323025.xdelta", "Next-Gen", "a5c13fb8c0e2e9c7c0c8e6f9d4b5a3e2"⟩
  else if size = 330553163 then
    some ⟨"fallout4_322806.xdelta", "Fallout 4 VR", "b7d24fa9e1d3c8b6a4f5e7c9d2a1b3c4"⟩
  else
    none

/-- The `known_patched_sizes` list appearing identically in
`identify_esm_version` (lines 166-169) and `detect_esm_version`
(lines 216-219): already-migrated reference sizes with display labels. -/
def known_patched_sizes : List (Nat × String) :=
  [(61741779, "VR-compatible version (58.9 MB)"),
   (61598851, "VR-compatible version (58.7 MB)")]

/-- The tolerance test `abs(file_size - size) < 1000` (source lines 172
and 222), on exact integers as in Python. -/
def withinTolerance (file_size ref : Nat) : Bool :=
  decide (((file_size : Int) - (ref : Int)).natAbs < 1000)

/-- The first entry of `known_patched_sizes` whose tolerance window contains
`file_size`, matching the `for size, description in known_patched_sizes`
loops that return on the first hit. -/
def findPatchedMatch (file_size : Nat) : Option (Nat × String) :=
  known_patched_sizes.find? (fun sd => withinTolerance file_size sd.1)

/-- Result of `get_file_info` (source lines 129-149) restricted to the
fields the resolvers read: existence and byte size.  (The MD5 digest is
computed for display only and never branched on.) -/
structure FileInfo where
  exists_ : Bool
  size : Nat
deriving Repr, DecidableEq

/-- `get_file_info` (source lines 129-149): existence and byte size of the
file at `p`.  A missing file yields `exists=False` (size field absent in
Python; `0` here, never read). -/
def get_file_info (fs : FileSystem) (p : String) : FileInfo :=
  match fs p with
  | none => ⟨false, 0⟩
  | some c => ⟨true, c.length⟩

/-- Display string of the unknown-version branch of `detect_esm_version`
(line 237).  Python adds thousands separators and a floating-point MB
figure; the numeric formatting is abstracted to plain decimal. -/
def unknownDisplay (file_size : Nat) : String :=
  "Unknown version (" ++ toString file_size ++ " bytes)"

/-- Display string of the unknown-version branch of `identify_esm_version`
(line 176), numeric formatting abstracted as in `unknownDisplay`. -/
def legacyUnknownDisplay (file_size : Nat) : String :=
  "Unknown ESM version (size: " ++ toString file_size ++ " bytes)"

/-- The dictionary returned by `detect_esm_version` (source lines 178-240).
`size` is `none` when the Python dict carries no `size` key (the
file-does-not-exist branch). -/
structure VersionInfo where
  exists_ : Bool
  size : Option Nat
  version : Option String
  display : String
  available_targets : List String
  patches : List (String × String)
deriving Repr, DecidableEq

/-- `detect_esm_version` (source lines 178-240): classify the file at `p`
by exact registry size, else by the already-migrated tolerance table, else
as unknown. -/
def detect_esm_version (fs : FileSystem) (p : String) : VersionInfo :=
  let fi := get_file_info fs p
  if fi.exists_ then
    let file_size := fi.size
    match ESM_VERSIONS file_size with
    | some vi =>
        ⟨true, some file_size, some vi.version, vi.display,
         vi.patches_to.map Prod.fst, vi.patches_to⟩
    | none =>
        match findPatchedMatch file_size with
        | some sd => ⟨true, some file_size, some "patched", sd.2, [], []⟩
        | none => ⟨true, some file_size, none, unknownDisplay file_size, [], []⟩
  else
    ⟨false, none, none, "File does not exist", [], []⟩

/-- `identify_esm_version` (source lines 151-176), the legacy resolver:
returns `(needs_patch, message, patch_info)`. -/
def identify_esm_version (fs : FileSystem) (p : String) :
    Bool × String × Option LegacyPatchInfo :=
  let fi := get_file_info fs p
  if fi.exists_ then
    let file_size := fi.size
    match PATCH_MAPPINGS file_size with
    | some pi =>
        (true, "Next-Gen ESM detected (" ++ pi.description ++ ")", some pi)
    | none =>
        match findPatchedMatch file_size with
        | some sd => (false, "Already patched: " ++ sd.2, none)
        | none => (false, legacyUnknownDisplay file_size, none)
  else
    (false, "File does not exist", none)

/-- The dict returned by `get_patch_for_target` (source lines 250-256). -/
structure PatchInfo where
  patch : String
  description : String
  source_version : Option String
  target_version : String
deriving Repr, DecidableEq

/-- Key lookup in an association list, as Python `d[k]` /
`k in d` on the `patches` dict. -/
def lookupA (l : List (String × String)) (k : String) : Option String :=
  (l.find? (fun kv => kv.1 = k)).map Prod.snd

/-- `get_patch_for_target` (source lines 242-258): re-resolve the version of
the file at `p` and look the requested target up in its `patches` dict;
`none` when the target is not available.  (The description string contains
the source file's literal mojibake arrow.) -/
def get_patch_for_target (fs : FileSystem) (p : String) (target_version : String) :
    Option PatchInfo :=
  let version_info := detect_esm_version fs p
  match lookupA version_info.patches target_version with
  | some patchFile =>
      some ⟨patchFile, version_info.display ++ " â†’ " ++ target_version,
            version_info.version, target_version⟩
  | none => none

/-- `create_backup` (source lines 260-282).  `overwrite_authorized` is the
caller's answer to the `messagebox.askyesno` overwrite prompt (consulted
only when a backup already exists).  Returns the `(success, message)` pair
and the resulting file system.  The `except` branch (copy2 with a missing
source) is modelled with an abstracted OS error string. -/
def create_backup (fs : FileSystem) (esm_path : String) (overwrite_authorized : Bool) :
    (Bool × String) × FileSystem :=
  let backup_path := esm_path ++ ".backup"
  if (fs backup_path).isSome && !overwrite_authorized then
    ((false, "Backup cancelled by user"), fs)
  else
    match fs esm_path with
    | none => ((false, "No such file or directory"), fs)
    | some c => ((true, backup_path), fsWrite fs backup_path c)

/-- Behaviour of one `subprocess.run` invocation of the external xdelta3
tool (source lines 306-311), as an opaque oracle: whether the 120 s timeout
expired (`subprocess.TimeoutExpired`), the process return code, and the
bytes the tool wrote to the temp output path, if it wrote any. -/
structure ToolRun where
  timedOut : Bool
  returncode : Nat
  output : Option FileContent
deriving Repr, DecidableEq

/-- Outcome of `apply_patch`; one constructor per `return` site of the
source (lines 313-352): non-zero tool exit, timeout, missing output,
undersized output, or success with the new size. -/
inductive PatchOutcome where
  | toolFailed (code : Nat)
  | timedOut
  | outputMissing
  | outputTooSmall (size : Nat)
  | success (newSize : Nat)
deriving Repr, DecidableEq

/-- `apply_patch` (source lines 284-352): run the external tool writing to
`esm_path + ".patched"`, handle timeout (partial output removed), non-zero
exit, output verification (existence and the 50 MB plausibility threshold,
undersized output removed), then commit by `os.remove(esm_path)` followed by
`os.rename(temp_output, esm_path)`.  The patch artifact itself only appears
on the external command line and is absorbed by the `tool` oracle. -/
def apply_patch (fs : FileSystem) (esm_path : String) (tool : ToolRun) :
    PatchOutcome × FileSystem :=
  let temp_output := esm_path ++ ".patched"
  let fs1 := match tool.output with
             | some c => fsWrite fs temp_output c
             | none => fs
  if tool.timedOut then
    (PatchOutcome.timedOut,
     if (fs1 temp_output).isSome then fsRemove fs1 temp_output else fs1)
  else if tool.returncode ≠ 0 then
    (PatchOutcome.toolFailed tool.returncode, fs1)
  else
    match fs1 temp_output with
    | none => (PatchOutcome.outputMissing, fs1)
    | some out =>
        let patched_size := out.length
        if patched_size < 50000000 then
          (PatchOutcome.outputTooSmall patched_size, fsRemove fs1 temp_output)
        else
          (PatchOutcome.success patched_size,
           fsWrite (fsRemove (fsRemove fs1 esm_path) temp_output) esm_path out)

/-- `restore_backup` (source lines 354-369): fail when no backup file
exists; otherwise delete the current asset (if present) and copy the backup
over it, leaving the backup file in place. -/
def restore_backup (fs : FileSystem) (esm_path : String) :
    (Bool × String) × FileSystem :=
  let backup_path := esm_path ++ ".backup"
  match fs backup_path with
  | none => ((false, "No backup file found"), fs)
  | some b =>
      let fs1 := if (fs esm_path).isSome then fsRemove fs esm_path else fs
      ((true, "Successfully restored from backup"), fsWrite fs1 esm_path b)

/-- Overall result of one patch transaction (backup, then apply), as
sequenced by both the CLI (lines 993-1009) and the GUI (lines 764-796). -/
inductive TxOutcome where
  | backupFailed (msg : String)
  | patchFailed (o : PatchOutcome)
  | succeeded (newSize : Nat)
deriving Repr, DecidableEq

/-- `true` on every outcome other than success. -/
def TxOutcome.failed : TxOutcome → Bool
  | .succeeded _ => false
  | _ => true

/-- One patch transaction as both callers run it: `create_backup`, abort on
backup failure, otherwise `apply_patch`. -/
def run_transaction (fs : FileSystem) (esm_path : String)
    (overwrite_authorized : Bool) (tool : ToolRun) : TxOutcome × FileSystem :=
  match create_backup fs esm_path overwrite_authorized with
  | ((false, msg), fs1) => (TxOutcome.backupFailed msg, fs1)
  | ((true, _), fs1) =>
      match apply_patch fs1 esm_path tool with
      | (PatchOutcome.success n, fs2) => (TxOutcome.succeeded n, fs2)
      | (o, fs2) => (TxOutcome.patchFailed o, fs2)

/-! ## Path helper lemmas

The backup and temp-output paths are `esm_path + ".backup"` and
`esm_path + ".patched"`; appending a non-empty suffix never yields the
original path, and the two suffixed paths differ. -/

theorem append_length_ne (s t : String) (ht : t.length ≠ 0) : s ++ t ≠ s := by
  intro h
  have h2 := congrArg String.length h
  rw [String.length_append] at h2
  omega

theorem append_ne_append (s t u : String) (h : t.length ≠ u.length) :
    s ++ t ≠ s ++ u := by
  intro he
  have h2 := congrArg String.length he
  rw [String.length_append, String.length_append] at h2
  omega

/-! ## Resolver lemmas -/

theorem detect_available_targets_eq (fs : FileSystem) (p : String) :
    (detect_esm_version fs p).available_targets
      = (detect_esm_version fs p).patches.map Prod.fst := by
  unfold detect_esm_version
  dsimp only
  split
  · split
    · rfl
    · split <;> rfl
  · rfl

theorem lookupA_isSome_iff (l : List (String × String)) (k : String) :
    (lookupA l k).isSome = true ↔ k ∈ l.map Prod.fst := by
  induction l with
  | nil => simp [lookupA]
  | cons a l ih =>
    by_cases h : a.1 = k
    · simp [lookupA, List.find?, h]
    · simp only [lookupA, List.find?, decide_eq_true_eq] at ih ⊢
      simp [h, ih, Ne.symm h]

/-- Claim C9: in every branch of `detect_esm_version` (file missing,
registry hit, tolerance-window hit, unknown), the `available_targets` list
is exactly the list of keys of the `patches` mapping. -/
theorem detect_targets_eq_patch_keys (fs : FileSystem) (p : String) :
    (detect_esm_version fs p).available_targets
      = (detect_esm_version fs p).patches.map Prod.fst :=
  detect_available_targets_eq fs p

/-- Claim C8: version resolution is a deterministic function of the file
currently at the path — two resolutions with the same file state (in
particular, two calls in a row with the file unmodified) yield identical
results, whatever the rest of the file system looks like. -/
theorem detect_deterministic (fs1 fs2 : FileSystem) (p : String)
    (h : fs1 p = fs2 p) :
    detect_esm_version fs1 p = detect_esm_version fs2 p := by
  unfold detect_esm_version get_file_info
  rw [h]

def fsDetA : FileSystem :=
  fun q => if q = "Fallout4.esm" then some [1, 2, 3] else none

def fsDetB : FileSystem :=
  fun q =>
    if q = "Fallout4.esm" then some [1, 2, 3]
    else if q = "other.txt" then some [9] else none

/-- Witness for C8: two file systems agreeing on `Fallout4.esm` resolve it
identically. -/
theorem detect_deterministic_witness :
    detect_esm_version fsDetA "Fallout4.esm"
      = detect_esm_version fsDetB "Fallout4.esm" :=
  detect_deterministic fsDetA fsDetB "Fallout4.esm" (by decide)

theorem detect_exact_aux (fs : FileSystem) (p : String) (c : FileContent)
    (r : VersionRecord) (hc : fs p = some c)
    (hr : ESM_VERSIONS c.length = some r) :
    detect_esm_version fs p =
      ⟨true, some c.length, some r.version, r.display,
       r.patches_to.map Prod.fst, r.patches_to⟩ := by
  unfold detect_esm_version get_file_info
  rw [hc]
  dsimp only
  rw [hr]
  rfl

/-- Claim C3: for every byte size that is a key of `ESM_VERSIONS`, resolving
an existing file of that size returns exactly the configured version tag,
display label, target list and patch mapping of that registry entry. -/
theorem detect_registry_exact (fs : FileSystem) (p : String) (c : FileContent)
    (r : VersionRecord) (hc : fs p = some c)
    (hr : ESM_VERSIONS c.length = some r) :
    detect_esm_version fs p =
      ⟨true, some c.length, some r.version, r.display,
       r.patches_to.map Prod.fst, r.patches_to⟩ :=
  detect_exact_aux fs p c r hc hr

def fsReg330 : FileSystem :=
  fun q => if q = "Fallout4.esm" then some (List.replicate 330777465 0) else none

/-- Witness for C3: a file of exactly the Next-Gen size 330777465 resolves
to the Next-Gen registry entry. -/
theorem detect_registry_exact_witness :
    detect_esm_version fsReg330 "Fallout4.esm" =
      ⟨true, some 330777465, some "nextgen", "Next-Gen", ["1.10.163"],
       [("1.10.163", "fallout4_323025.xdelta")]⟩ := by
  have h1 : fsReg330 "Fallout4.esm" = some (List.replicate 330777465 0) := rfl
  have h2 : ESM_VERSIONS (List.replicate 330777465 (0 : Nat)).length =
      some ⟨"nextgen", "Next-Gen", [("1.10.163", "fallout4_323025.xdelta")]⟩ := by
    rw [List.length_replicate]
    rfl
  have h3 := detect_registry_exact fsReg330 "Fallout4.esm"
    (List.replicate 330777465 0) _ h1 h2
  rw [h3, List.length_replicate]
  rfl

/-- Claim C4: `get_patch_for_target` returns a patch record exactly when the
requested target is among the available targets resolved for the file, and
the artifact it returns is the one the resolved `patches` mapping assigns to
that target; otherwise it returns `none` (never an error). -/
theorem get_patch_iff_target_available (fs : FileSystem) (p : String)
    (t : String) :
    ((get_patch_for_target fs p t).isSome = true ↔
      t ∈ (detect_esm_version fs p).available_targets) ∧
    (get_patch_for_target fs p t).map PatchInfo.patch
      = lookupA (detect_esm_version fs p).patches t := by
  constructor
  · rw [detect_available_targets_eq, ← lookupA_isSome_iff]
    unfold get_patch_for_target
    cases hl : lookupA (detect_esm_version fs p).patches t <;> simp [hl]
  · unfold get_patch_for_target
    cases hl : lookupA (detect_esm_version fs p).patches t <;> simp [hl]

/-- Witness for C4 at the VR registry entry: `nextgen` is available (and
maps to the VR→NG artifact) while `bogus` is not. -/
theorem get_patch_iff_target_available_witness :
    ((get_patch_for_target fsDetA "Fallout4.esm" "bogus").isSome = true ↔
      "bogus" ∈ (detect_esm_version fsDetA "Fallout4.esm").available_targets) :=
  (get_patch_iff_target_available fsDetA "Fallout4.esm" "bogus").1

/-- Claim C5: an existing file whose size is not a registry key but falls in
the tolerance window of one of the already-migrated reference sizes is
classified with the `"patched"` identity and that entry's migrated label
(never as unknown).  The window is the source's strict test
`abs(file_size - ref) < 1000`. -/
theorem detect_tolerance_migrated (fs : FileSystem) (p : String)
    (c : FileContent) (ref : Nat) (desc : String)
    (hc : fs p = some c) (hreg : ESM_VERSIONS c.length = none)
    (hmem : (ref, desc) ∈ known_patched_sizes)
    (htol : withinTolerance c.length ref = true) :
    detect_esm_version fs p = ⟨true, some c.length, some "patched", desc, [], []⟩ := by
  have hfind : findPatchedMatch c.length = some (ref, desc) := by
    have hm : (ref = 61741779 ∧ desc = "VR-compatible version (58.9 MB)")
        ∨ (ref = 61598851 ∧ desc = "VR-compatible version (58.7 MB)") := by
      simpa [known_patched_sizes, Prod.ext_iff] using hmem
    rcases hm with ⟨h1, h2⟩ | ⟨h1, h2⟩
    · subst h1
      subst h2
      simp [findPatchedMatch, known_patched_sizes, List.find?, htol]
    · subst h1
      subst h2
      have hlt : ((c.length : Int) - 61598851).natAbs < 1000 :=
        of_decide_eq_true htol
      have hne : withinTolerance c.length 61741779 = false := by
        unfold withinTolerance
        rw [decide_eq_false_iff_not]
        omega
      simp [findPatchedMatch, known_patched_sizes, List.find?, htol, hne]
  unfold detect_esm_version get_file_info
  rw [hc]
  dsimp only
  rw [hreg, hfind]
  rfl

def fsTol : FileSystem :=
  fun q => if q = "Fallout4.esm" then some (List.replicate 61741780 0) else none

/-- Witness for C5: a file of size 61741780 (one byte above the first
migrated reference size, not a registry key) is classified as patched with
the migrated label. -/
theorem detect_tolerance_migrated_witness :
    detect_esm_version fsTol "Fallout4.esm" =
      ⟨true, some 61741780, some "patched",
       "VR-compatible version (58.9 MB)", [], []⟩ := by
  have h1 : fsTol "Fallout4.esm" = some (List.replicate 61741780 0) := rfl
  have h2 : ESM_VERSIONS (List.replicate 61741780 (0 : Nat)).length = none := by
    rw [List.length_replicate]
    rfl
  have h3 : ((61741779 : Nat), "VR-compatible version (58.9 MB)")
      ∈ known_patched_sizes := by
    simp [known_patched_sizes]
  have h4 : withinTolerance (List.replicate 61741780 (0 : Nat)).length 61741779
      = true := by
    rw [List.length_replicate]
    decide
  have h5 := detect_tolerance_migrated fsTol "Fallout4.esm"
    (List.replicate 61741780 0) 61741779 "VR-compatible version (58.9 MB)"
    h1 h2 h3 h4
  rw [h5, List.length_replicate]

/-- Claim C6: when a backup file already exists at `esm_path + ".backup"`
and the caller does not authorize overwriting it, `create_backup` fails with
the backup-already-exists outcome ("Backup cancelled by user") and the file
system — in particular the asset and the existing backup — is unchanged. -/
theorem create_backup_exists_no_auth_fails (fs : FileSystem) (esm_path : String)
    (h : (fs (esm_path ++ ".backup")).isSome = true) :
    create_backup fs esm_path false = ((false, "Backup cancelled by user"), fs) := by
  simp [create_backup, h]

def fsBk : FileSystem :=
  fun q =>
    if q = "Fallout4.esm" then some [1]
    else if q = "Fallout4.esm.backup" then some [2] else none

/-- Witness for C6: with asset `[1]` and backup `[2]` present and no
overwrite authorization, `create_backup` fails and leaves the file system
unchanged. -/
theorem create_backup_exists_no_auth_fails_witness :
    create_backup fsBk "Fallout4.esm" false
      = ((false, "Backup cancelled by user"), fsBk) :=
  create_backup_exists_no_auth_fails fsBk "Fallout4.esm" (by decide)

/-- Claim C7: `restore_backup` fails with the no-backup outcome (file system
unchanged) when no backup exists; when a backup exists the restore succeeds,
the asset becomes byte-identical to the backup, and the backup file still
exists (with its content intact) afterward. -/
theorem restore_backup_spec (fs : FileSystem) (esm_path : String) :
    (fs (esm_path ++ ".backup") = none →
      restore_backup fs esm_path = ((false, "No backup file found"), fs)) ∧
    (∀ b, fs (esm_path ++ ".backup") = some b →
      (restore_backup fs esm_path).1 = (true, "Successfully restored from backup") ∧
      (restore_backup fs esm_path).2 esm_path = some b ∧
      (restore_backup fs esm_path).2 (esm_path ++ ".backup") = some b) := by
  constructor
  · intro h
    unfold restore_backup
    dsimp only
    rw [h]
  · intro b h
    have hne : esm_path ++ ".backup" ≠ esm_path :=
      append_length_ne _ _ (by decide)
    unfold restore_backup
    dsimp only
    rw [h]
    dsimp only
    refine ⟨rfl, ?_, ?_⟩
    · simp [fsWrite]
    · simp only [fsWrite, if_neg hne]
      by_cases hcase : (fs esm_path).isSome
      · simp [hcase, fsRemove, if_neg hne, h]
      · simp [hcase, h]

def fsRb : FileSystem :=
  fun q =>
    if q = "Fallout4.esm" then some [1]
    else if q = "Fallout4.esm.backup" then some [5, 6] else none

/-- Witness for C7: restoring with no backup fails and changes nothing;
restoring with backup `[5, 6]` succeeds, the asset becomes `[5, 6]`, and the
backup keeps `[5, 6]`. -/
theorem restore_backup_spec_witness :
    (restore_backup fsDetA "Fallout4.esm" = ((false, "No backup file found"), fsDetA)) ∧
    ((restore_backup fsRb "Fallout4.esm").1 = (true, "Successfully restored from backup") ∧
     (restore_backup fsRb "Fallout4.esm").2 "Fallout4.esm" = some [5, 6] ∧
     (restore_backup fsRb "Fallout4.esm").2 ("Fallout4.esm" ++ ".backup") = some [5, 6]) :=
  ⟨(restore_backup_spec fsDetA "Fallout4.esm").1 (by decide),
   (restore_backup_spec fsRb "Fallout4.esm").2 [5, 6] (by decide)⟩

/-! ## Transaction lemmas -/

/-- `true` exactly on the success outcome of `apply_patch`. -/
def PatchOutcome.isSuccess : PatchOutcome → Bool
  | .success _ => true
  | _ => false

theorem create_backup_frame (fs : FileSystem) (esm_path : String) (auth : Bool)
    (q : String) (hq : q ≠ esm_path ++ ".backup") :
    (create_backup fs esm_path auth).2 q = fs q := by
  by_cases hcond : ((fs (esm_path ++ ".backup")).isSome && !auth) = true
  · simp [create_backup, hcond]
  · cases hesm : fs esm_path with
    | none => simp [create_backup, hcond, hesm]
    | some c => simp [create_backup, hcond, hesm, fsWrite, hq]

theorem create_backup_fail_eq (fs : FileSystem) (esm_path : String) (auth : Bool)
    (h : (create_backup fs esm_path auth).1.1 = false) :
    (create_backup fs esm_path auth).2 = fs := by
  by_cases hcond : ((fs (esm_path ++ ".backup")).isSome && !auth) = true
  · simp [create_backup, hcond]
  · cases hesm : fs esm_path with
    | none => simp [create_backup, hcond, hesm]
    | some c =>
      have h2 : (create_backup fs esm_path auth).1.1 = true := by
        simp [create_backup, hcond, hesm]
      simp [h2] at h

theorem apply_patch_sndq (fs : FileSystem) (esm_path : String) (tool : ToolRun)
    (q : String) (hq : q ≠ esm_path ++ ".patched") :
    (apply_patch fs esm_path tool).2 q = fs q
      ∨ ((apply_patch fs esm_path tool).1).isSuccess = true := by
  cases htd : tool.timedOut with
  | true =>
    left
    cases hout : tool.output with
    | some c => simp [apply_patch, htd, hout, fsWrite, fsRemove, hq]
    | none =>
      by_cases hstale : (fs (esm_path ++ ".patched")).isSome
      · simp [apply_patch, htd, hout, hstale, fsRemove, hq]
      · simp [apply_patch, htd, hout, hstale]
  | false =>
    by_cases hrc : tool.returncode = 0
    · cases hout : tool.output with
      | some c =>
        by_cases h50 : c.length < 50000000
        · left
          simp [apply_patch, htd, hout, hrc, h50, fsWrite, fsRemove, hq]
        · right
          simp [apply_patch, htd, hout, hrc, h50, fsWrite, PatchOutcome.isSuccess]
      | none =>
        cases hstale : fs (esm_path ++ ".patched") with
        | none => left; simp [apply_patch, htd, hout, hrc, hstale]
        | some out =>
          by_cases h50 : out.length < 50000000
          · left
            simp [apply_patch, htd, hout, hrc, hstale, h50, fsRemove, hq]
          · right
            simp [apply_patch, htd, hout, hrc, hstale, h50, PatchOutcome.isSuccess]
    · left
      cases hout : tool.output with
      | some c => simp [apply_patch, htd, hout, hrc, fsWrite, hq]
      | none => simp [apply_patch, htd, hout, hrc]

theorem apply_patch_fail_asset (fs : FileSystem) (esm_path : String)
    (tool : ToolRun)
    (h : ((apply_patch fs esm_path tool).1).isSuccess = false) :
    (apply_patch fs esm_path tool).2 esm_path = fs esm_path := by
  have hne : esm_path ≠ esm_path ++ ".patched" :=
    (append_length_ne esm_path ".patched" (by decide)).symm
  rcases apply_patch_sndq fs esm_path tool esm_path hne with h2 | h2
  · exact h2
  · rw [h] at h2
    cases h2

theorem apply_patch_fst_timeout_iff (fs : FileSystem) (esm_path : String)
    (tool : ToolRun) :
    (apply_patch fs esm_path tool).1 = PatchOutcome.timedOut
      ↔ tool.timedOut = true := by
  cases htd : tool.timedOut with
  | true => simp [apply_patch, htd]
  | false =>
    by_cases hrc : tool.returncode = 0
    · cases hout : tool.output with
      | some c =>
        by_cases h50 : c.length < 50000000 <;>
          simp [apply_patch, htd, hout, hrc, h50, fsWrite]
      | none =>
        cases hstale : fs (esm_path ++ ".patched") with
        | none => simp [apply_patch, htd, hout, hrc, hstale]
        | some out =>
          by_cases h50 : out.length < 50000000 <;>
            simp [apply_patch, htd, hout, hrc, hstale, h50]
    · cases hout : tool.output with
      | some c => simp [apply_patch, htd, hout, hrc, fsWrite]
      | none => simp [apply_patch, htd, hout, hrc]

theorem apply_patch_timeout_temp (fs : FileSystem) (esm_path : String)
    (tool : ToolRun) (ht : tool.timedOut = true) :
    (apply_patch fs esm_path tool).2 (esm_path ++ ".patched") = none := by
  cases hout : tool.output with
  | some c => simp [apply_patch, ht, hout, fsWrite, fsRemove]
  | none =>
    by_cases hstale : (fs (esm_path ++ ".patched")).isSome
    · simp [apply_patch, ht, hout, hstale, fsRemove]
    · simp [apply_patch, ht, hout, hstale]
      exact Option.not_isSome_iff_eq_none.mp hstale

/-- Claim C1: every transaction that fails before the commit point — backup
failure, non-zero tool exit, timeout, missing output, or output-size
verification failure — leaves the original asset byte-for-byte unchanged,
and on timeout the temp output path holds no partial output afterwards. -/
theorem tx_preCommit_failure_preserves_asset (fs : FileSystem)
    (esm_path : String) (auth : Bool) (tool : ToolRun) :
    ((run_transaction fs esm_path auth tool).1.failed = true →
      (run_transaction fs esm_path auth tool).2 esm_path = fs esm_path) ∧
    ((run_transaction fs esm_path auth tool).1
        = TxOutcome.patchFailed PatchOutcome.timedOut →
      (run_transaction fs esm_path auth tool).2 (esm_path ++ ".patched") = none) := by
  have hbne : esm_path ≠ esm_path ++ ".backup" :=
    (append_length_ne esm_path ".backup" (by decide)).symm
  rcases hcb : create_backup fs esm_path auth with ⟨⟨ok, msg⟩, fs1⟩
  have hfs1esm : fs1 esm_path = fs esm_path := by
    have h := create_backup_frame fs esm_path auth esm_path hbne
    rw [hcb] at h
    exact h
  unfold run_transaction
  rw [hcb]
  cases ok with
  | false =>
    have hfs1 : fs1 = fs := by
      have h := create_backup_fail_eq fs esm_path auth (by rw [hcb])
      rw [hcb] at h
      exact h
    dsimp only
    constructor
    · intro _
      rw [hfs1]
    · intro habs
      simp at habs
  | true =>
    dsimp only
    rcases hap : apply_patch fs1 esm_path tool with ⟨o, fs2⟩
    have hfs2esm : o.isSuccess = false → fs2 esm_path = fs esm_path := by
      intro ho
      have h := apply_patch_fail_asset fs1 esm_path tool (by rw [hap]; exact ho)
      rw [hap] at h
      exact h.trans hfs1esm
    have htemp : o = PatchOutcome.timedOut →
        fs2 (esm_path ++ ".patched") = none := by
      intro ho
      have ht : tool.timedOut = true := by
        rw [← apply_patch_fst_timeout_iff fs1 esm_path tool, hap, ho]
      have h := apply_patch_timeout_temp fs1 esm_path tool ht
      rw [hap] at h
      exact h
    cases o with
    | success n =>
      constructor
      · intro hfail
        simp [TxOutcome.failed] at hfail
      · intro habs
        simp at habs
    | timedOut =>
      exact ⟨fun _ => hfs2esm rfl, fun _ => htemp rfl⟩
    | toolFailed code =>
      constructor
      · intro _
        exact hfs2esm rfl
      · intro habs
        simp at habs
    | outputMissing =>
      constructor
      · intro _
        exact hfs2esm rfl
      · intro habs
        simp at habs
    | outputTooSmall n =>
      constructor
      · intro _
        exact hfs2esm rfl
      · intro habs
        simp at habs

def fsAsset : FileSystem :=
  fun q => if q = "Fallout4.esm" then some [1, 2, 3] else none

def toolTimeoutRun : ToolRun := ⟨true, 0, some [7]⟩

/-- Witness for C1: a transaction whose tool run times out after writing a
partial byte leaves the asset `[1, 2, 3]` unchanged and no temp output. -/
theorem tx_preCommit_failure_preserves_asset_witness :
    (run_transaction fsAsset "Fallout4.esm" true toolTimeoutRun).2 "Fallout4.esm"
        = fsAsset "Fallout4.esm" ∧
    (run_transaction fsAsset "Fallout4.esm" true toolTimeoutRun).2
        ("Fallout4.esm" ++ ".patched") = none :=
  ⟨(tx_preCommit_failure_preserves_asset fsAsset "Fallout4.esm" true
      toolTimeoutRun).1 (by decide),
   (tx_preCommit_failure_preserves_asset fsAsset "Fallout4.esm" true
      toolTimeoutRun).2 (by decide)⟩

def toolNonzeroExit : ToolRun := ⟨false, 1, some [9]⟩

/-- Claim C2 (code bug evaluation): when the external tool exits with return
code 1 after writing a partial byte to the temp output path, `apply_patch`
does end `Failed` with the tool-failed reason and leaves the asset
byte-identical — but the partial temp output file `Fallout4.esm.patched`
remains on disk, because the non-zero-exit branch (source line 318) returns
without the `os.remove(temp_output)` cleanup that the timeout, undersized
output, and generic exception branches all perform. -/
theorem apply_patch_nonzero_exit_leaves_temp_output :
    (apply_patch fsAsset "Fallout4.esm" toolNonzeroExit).1
        = PatchOutcome.toolFailed 1 ∧
    (apply_patch fsAsset "Fallout4.esm" toolNonzeroExit).2 "Fallout4.esm"
        = some [1, 2, 3] ∧
    (apply_patch fsAsset "Fallout4.esm" toolNonzeroExit).2 "Fallout4.esm.patched"
        = some [9] := by
  decide

/-! ## Legacy resolver (C10) -/

theorem identify_fst_eq (fs : FileSystem) (p : String) (c : FileContent)
    (hc : fs p = some c) :
    (identify_esm_version fs p).1 = (PATCH_MAPPINGS c.length).isSome := by
  unfold identify_esm_version get_file_info
  rw [hc]
  dsimp only
  cases hm : PATCH_MAPPINGS c.length with
  | some pi => rfl
  | none =>
    cases hf : findPatchedMatch c.length with
    | some sd => rfl
    | none => rfl

theorem PATCH_MAPPINGS_isSome_iff (s : Nat) :
    (PATCH_MAPPINGS s).isSome = true ↔ (s = 330777465 ∨ s = 330553163) := by
  unfold PATCH_MAPPINGS
  by_cases h1 : s = 330777465
  · simp [h1]
  · by_cases h2 : s = 330553163 <;> simp [h1, h2]

theorem identify_at_oldgen (fs : FileSystem) (p : String) (c : FileContent)
    (hc : fs p = some c) (hsz : c.length = 330745373) :
    identify_esm_version fs p
      = (false, legacyUnknownDisplay 330745373, none) := by
  unfold identify_esm_version get_file_info
  rw [hc]
  dsimp only
  rw [hsz]
  rfl

/-- Claim C10: the legacy resolver `identify_esm_version` reports a patch
available exactly for the two `PATCH_MAPPINGS` sizes 330777465 and
330553163; for the 1.10.163 size 330745373 it reports no patch while
`detect_esm_version` offers the `nextgen` transition — the two resolvers are
not equivalent. -/
theorem legacy_vs_new_resolver (fs : FileSystem) (p : String) (c : FileContent)
    (hc : fs p = some c) :
    (((identify_esm_version fs p).1 = true) ↔
      (c.length = 330777465 ∨ c.length = 330553163)) ∧
    (c.length = 330745373 →
      (identify_esm_version fs p).1 = false ∧
      (identify_esm_version fs p).2.2 = none ∧
      (detect_esm_version fs p).available_targets = ["nextgen"]) := by
  constructor
  · rw [identify_fst_eq fs p c hc]
    exact PATCH_MAPPINGS_isSome_iff c.length
  · intro hsz
    have hid := identify_at_oldgen fs p c hc hsz
    have hdet := detect_exact_aux fs p c
      ⟨"1.10.163", "1.10.163 (Old-Gen)", [("nextgen", "fallout4_old_to_ng.xdelta")]⟩
      hc (by rw [hsz]; rfl)
    rw [hid, hdet]
    exact ⟨rfl, rfl, rfl⟩

def fsOld : FileSystem :=
  fun q => if q = "Fallout4.esm" then some (List.replicate 330745373 0) else none

/-- Witness for C10: on a file of the 1.10.163 size 330745373 the legacy
resolver reports no patch while the new resolver offers `nextgen`. -/
theorem legacy_vs_new_resolver_witness :
    (identify_esm_version fsOld "Fallout4.esm").1 = false ∧
    (identify_esm_version fsOld "Fallout4.esm").2.2 = none ∧
    (detect_esm_version fsOld "Fallout4.esm").available_targets = ["nextgen"] :=
  (legacy_vs_new_resolver fsOld "Fallout4.esm"
      (List.replicate 330745373 0) rfl).2
    (by rw [List.length_replicate])

end ESMPatcher
